import Mathlib

/-!
Shallow embedding of `gradlew.py` (obfusk/gradlew.py), a pure-python gradle
wrapper.  Python strings are modelled as `List Char`; `Optional[str]` as
`Option (List Char)` together with Python truthiness (`None` and `""` are
falsy); raised `Error` exceptions as `Except Err`; the observable network /
filesystem-write / child-process side effects as an explicit trace of `Eff`
values returned alongside the result.  External world outcomes (which files
exist, what a download hashes to, the child process exit code) are passed in
as explicit parameters, mirroring the corresponding `os.path.exists`,
download and `subprocess.run` call sites.
-/

deriving instance DecidableEq for Except

namespace GradlewPy

/-- Warnings printed to stderr by `load_wrapper_urls` in gradlew.py. -/
inductive Warn
  | dupUrl
  | dupSha
  | noSha
deriving DecidableEq

/-- The `Error` exceptions raised by gradlew.py, one constructor per raise
site, carrying the data interpolated into the message.  `uncaught` models a
Python exception that escapes the script's own `Error` hierarchy (e.g. a
`urllib` or `zipfile` failure), which is not caught by `main` but still
terminates the process. -/
inductive Err
  | noSuchFile
  | unsupportedURL (url : List Char)
  | unknownVersion (v : List Char)
  | urlMismatch (expected got : List Char)
  | shaMismatch (expected got : List Char)
  | dlShaMismatch (expected actual : List Char)
  | noDistributionUrl
  | cmdFailed (cmd : List Char)
  | cmdNotFound (cmd : List Char)
  | malformedSha (s : List Char)
  | duplicateVersion (v : List Char)
  | uncaught
deriving DecidableEq

/-- Observable network / filesystem-write / child-process effects of a run.
Reads of local files (descriptor, manifest, `os.path.exists` probes) are not
mutations and are modelled by the explicit input parameters instead. -/
inductive Eff
  | download (url : List Char)
  | writeTmp
  | mkdirCache
  | extract
  | chmod
  | runChild (cmd : List Char)
deriving DecidableEq

/-- Python truthiness of an `Optional[str]` value: `None` and `""` are
falsy, every non-empty string is truthy. -/
def optTruthy : Option (List Char) → Bool
  | none => false
  | some [] => false
  | some (_ :: _) => true

/-- Python `s.replace(pat, rep, 1)` for non-empty `pat`: replace the leftmost
occurrence of `pat` in `s` by `rep`, if there is one. -/
def replaceFirst (pat rep : List Char) : List Char → List Char
  | [] => []
  | c :: cs =>
    if pat.isPrefixOf (c :: cs) then rep ++ (c :: cs).drop pat.length
    else c :: replaceFirst pat rep cs

/-- Whether `pat` occurs as a contiguous sublist of `s`. -/
def containsSub (pat : List Char) : List Char → Bool
  | [] => pat.isEmpty
  | c :: cs => pat.isPrefixOf (c :: cs) || containsSub pat cs

def urlKey : List Char := "distributionUrl=".toList

def shaKey : List Char := "distributionSha256Sum=".toList

def escHttps : List Char := "https\\:".toList

def plainHttps : List Char := "https:".toList

/-- The literal part of `GRADLE_BINZIP_URL` before the `{}` placeholder
(shared with `GRADLE_BINZIP_RX`, whose escaped dots denote the same literal
characters). -/
def distroPre : List Char := "https://services.gradle.org/distributions/gradle-".toList

def binSuf : List Char := "-bin.zip".toList

/-- `GRADLE_BINZIP_URL.format(version)`. -/
def gradleBinzipUrl (version : List Char) : List Char := distroPre ++ version ++ binSuf

/-- `GRADLE_SHA256_URL.format(version)`. -/
def gradleSha256Url (version : List Char) : List Char :=
  gradleBinzipUrl version ++ ".sha256".toList

/-- Whether an 8-character suffix matches the tail `-bin.zip` of
`GRADLE_BINZIP_RX`, where the unescaped `.` of the pattern matches any
character except a newline. -/
def binSufMatch : List Char → Bool
  | ['-', 'b', 'i', 'n', c, 'z', 'i', 'p'] => !(c == '\n')
  | _ => false

/-- `GRADLE_BINZIP_RX.fullmatch` with its single capture group.  The regex is
a literal 49-character head, then `(.*)`, then a fixed-length-8 tail
`-bin.zip`.  A full match therefore forces the capture to be exactly the
input minus the literal head and the last 8 characters; `.` never matches a
newline, so the capture and the tail's wildcard position must be
newline-free. -/
def binzipFullmatch (s : List Char) : Option (List Char) :=
  if distroPre.isPrefixOf s then
    let tail := s.drop distroPre.length
    if tail.length < 8 then none
    else
      let cap := tail.take (tail.length - 8)
      if binSufMatch (tail.drop (tail.length - 8)) && cap.all (fun c => !(c == '\n')) then
        some cap
      else none
  else none

/-- Parser state of the `for line in fh` loop of `load_wrapper_urls`:
the two `Optional[str]` locals plus the warnings printed so far. -/
structure PState where
  url : Option (List Char)
  sha : Option (List Char)
  warns : List Warn
deriving DecidableEq

/-- The value stored for a `distributionUrl=` line:
`line.split("=", 1)[-1].replace("https\\:", "https:", 1)` (the key contains
no `=`, so the split point is the `=` ending the key). -/
def urlVal (line : List Char) : List Char :=
  replaceFirst escHttps plainHttps (line.drop urlKey.length)

/-- One iteration of the line loop of `load_wrapper_urls`. -/
def stepLine (st : PState) (line : List Char) : PState :=
  if urlKey.isPrefixOf line then
    ⟨some (urlVal line), st.sha,
      if optTruthy st.url then st.warns ++ [Warn.dupUrl] else st.warns⟩
  else if shaKey.isPrefixOf line then
    ⟨st.url, some (line.drop shaKey.length),
      if optTruthy st.sha then st.warns ++ [Warn.dupSha] else st.warns⟩
  else st

/-- `load_wrapper_urls`, over the newline-stripped lines of
`gradle/wrapper/gradle-wrapper.properties`.  Returns the warnings printed to
stderr together with either the raised `Error` or the returned pair. -/
def load_wrapper_urls (lines : List (List Char)) :
    List Warn × Except Err (List Char × Option (List Char)) :=
  let st := lines.foldl stepLine ⟨none, none, []⟩
  if optTruthy st.url then
    (if optTruthy st.sha then st.warns else st.warns ++ [Warn.noSha],
     Except.ok (st.url.getD [], st.sha))
  else (st.warns, Except.error Err.noDistributionUrl)

/-- One entry of `gradle-versions.json`. -/
structure VersionRec where
  binzip_url : List Char
  sha256 : List Char
deriving DecidableEq

/-- The loaded `gradle-versions.json` mapping, as an insertion-ordered
association list (JSON object keys are unique). -/
abbrev Manifest := List (List Char × VersionRec)

/-- `version in gradle_versions` / `gradle_versions[version]`. -/
def lookupVersion (m : Manifest) (v : List Char) : Option VersionRec := m.lookup v

/-- `os.path.join(libdir, f"gradle-{version}", "bin", "gradle")`. -/
def gradleCmdPath (libdir version : List Char) : List Char :=
  libdir ++ "/gradle-".toList ++ version ++ "/bin/gradle".toList

/-- External-world outcomes consumed by `download_gradle`: whether `wget` is
on `PATH`, whether the transport succeeds, the SHA-256 hex digest of the
bytes actually fetched (computed by `sha256_file` on the wget path and by
`download_file` on the urllib path — the digest of the same written file
either way), whether `unzip` is on `PATH`, and whether extraction succeeds. -/
structure DlEnv where
  hasWget : Bool
  fetchOk : Bool
  dlDigest : List Char
  hasUnzip : Bool
  extractOk : Bool
deriving DecidableEq

/-- `download_gradle`.  `cacheExists` is the `os.path.exists(gradle_cmd)`
probe.  The temporary download directory lies outside the cache root, so
writing the archive there is `Eff.writeTmp`, not a cache mutation.  On the
wget path a failed fetch raises `Error("wget command failed")` via
`run_command`; on the urllib path a transport failure escapes as an uncaught
exception.  Extraction failures are `Error("unzip command failed")` on the
unzip path and an uncaught `zipfile`/`os` exception otherwise. -/
def download_gradle (libdir version binzip_url sha256 : List Char)
    (cacheExists : Bool) (env : DlEnv) : List Eff × Except Err (List Char) :=
  let gradle_cmd := gradleCmdPath libdir version
  if cacheExists then ([], Except.ok gradle_cmd)
  else if !env.fetchOk then
    ([Eff.download binzip_url],
     Except.error (if env.hasWget then Err.cmdFailed "wget".toList else Err.uncaught))
  else if env.dlDigest ≠ sha256 then
    ([Eff.download binzip_url, Eff.writeTmp],
     Except.error (Err.dlShaMismatch sha256 env.dlDigest))
  else if env.hasUnzip then
    if env.extractOk then
      ([Eff.download binzip_url, Eff.writeTmp, Eff.mkdirCache, Eff.extract],
       Except.ok gradle_cmd)
    else
      ([Eff.download binzip_url, Eff.writeTmp, Eff.mkdirCache, Eff.extract],
       Except.error (Err.cmdFailed "unzip".toList))
  else if env.extractOk then
    ([Eff.download binzip_url, Eff.writeTmp, Eff.mkdirCache, Eff.extract, Eff.chmod],
     Except.ok gradle_cmd)
  else
    ([Eff.download binzip_url, Eff.writeTmp, Eff.mkdirCache, Eff.extract],
     Except.error Err.uncaught)

/-- `run_command(cmd, *args)` on the child invocation: `outcome` is `none`
when the executable is missing (`FileNotFoundError`) and `some c` when the
child was launched and exited with code `c`; `subprocess.run(..., check=True)`
raises `CalledProcessError` exactly when `c ≠ 0`. -/
def run_command (cmd : List Char) (outcome : Option Nat) : List Eff × Except Err Unit :=
  ([Eff.runChild cmd],
   match outcome with
   | none => Except.error (Err.cmdNotFound cmd)
   | some 0 => Except.ok ()
   | some (_ + 1) => Except.error (Err.cmdFailed cmd))

/-- The process exit code produced by `main`: `sys.exit(1)` when `gradlew`
raised an `Error` (after printing the one-line `Error: ...` diagnostic), the
interpreter's exit code 1 on an uncaught exception, and a normal exit 0
otherwise. -/
def mainExit {α : Type} : Except Err α → Nat
  | Except.ok _ => 0
  | Except.error _ => 1

/-- The tail of `gradlew` after cross-validation: `download_gradle` followed
by `run_command` on the resulting binary. -/
def materializeAndRun (version : List Char) (r : VersionRec) (libdir : List Char)
    (cacheExists : Bool) (denv : DlEnv) (child : Option Nat) :
    List Eff × Except Err Unit :=
  match download_gradle libdir version r.binzip_url r.sha256 cacheExists denv with
  | (effs, Except.error e) => (effs, Except.error e)
  | (effs, Except.ok cmd) =>
    let rc := run_command cmd child
    (effs ++ rc.1, rc.2)

/-- The part of `gradlew` from the manifest lookup on: `wUrl` and `wSha` are
the locals `wrapper_binzip_url` and `wrapper_sha256` (both `None` when an
explicit version override was given).  The two mismatch checks use Python
truthiness on the wrapper values, in source order: URL first, checksum
second. -/
def resolveCore (wUrl wSha : Option (List Char)) (version : List Char)
    (manifest : Manifest) (libdir : List Char) (cacheExists : Bool)
    (denv : DlEnv) (child : Option Nat) : List Eff × Except Err Unit :=
  match lookupVersion manifest version with
  | none => ([], Except.error (Err.unknownVersion version))
  | some r =>
    if optTruthy wUrl = true ∧ r.binzip_url ≠ wUrl.getD [] then
      ([], Except.error (Err.urlMismatch r.binzip_url (wUrl.getD [])))
    else if optTruthy wSha = true ∧ r.sha256 ≠ wSha.getD [] then
      ([], Except.error (Err.shaMismatch r.sha256 (wSha.getD [])))
    else materializeAndRun version r libdir cacheExists denv child

/-- `gradlew`.  `versionOpt` is the `--version` override (Python-truthy to
take effect, as in `if not version:`); `propsExists` is the
`os.path.exists(_wrapper_props())` probe; `propsLines` the newline-stripped
lines of the descriptor file.  Loading the local manifest file performs no
network access and no writes. -/
def gradlew (manifest : Manifest) (versionOpt : Option (List Char))
    (propsExists : Bool) (propsLines : List (List Char)) (libdir : List Char)
    (cacheExists : Bool) (denv : DlEnv) (child : Option Nat) :
    List Eff × Except Err Unit :=
  if optTruthy versionOpt then
    resolveCore none none (versionOpt.getD []) manifest libdir cacheExists denv child
  else if !propsExists then ([], Except.error Err.noSuchFile)
  else
    match (load_wrapper_urls propsLines).2 with
    | Except.error e => ([], Except.error e)
    | Except.ok (u, sh) =>
      match binzipFullmatch u with
      | none => ([], Except.error (Err.unsupportedURL u))
      | some v => resolveCore (some u) sh v manifest libdir cacheExists denv child

def hexChars : List Char := "0123456789abcdef".toList

/-- The validation in `_gradle_sha256`, applied to the decoded response body:
`if not len(sha256) == 64 and all(c in "0123456789abcdef" for c in sha256)`.
By Python operator precedence this parses as
`(len(sha256) != 64) and all(...)`. -/
def gradle_sha256 (body : List Char) : Except Err (List Char) :=
  if body.length ≠ 64 ∧ body.all (fun c => hexChars.contains c) = true then
    Except.error (Err.malformedSha body)
  else Except.ok body

/-- One entry of the remote `versions/all` JSON index, with `shaBody` the
decoded body the entry's checksum URL serves. -/
structure VsnEntry where
  version : List Char
  downloadUrl : List Char
  checksumUrl : List Char
  nightly : Bool
  snapshot : Bool
  shaBody : List Char
deriving DecidableEq

/-- The `for vsn in json.load(fh)` loop of `update_gradle_versions`,
accumulating the `data` dict (insertion-ordered association list). -/
def updateLoop : List VsnEntry → Manifest → Except Err Manifest
  | [], data => Except.ok data
  | e :: es, data =>
    if e.nightly || e.snapshot then updateLoop es data
    else if gradleBinzipUrl e.version ≠ e.downloadUrl then updateLoop es data
    else if gradleSha256Url e.version ≠ e.checksumUrl then updateLoop es data
    else if (lookupVersion data e.version).isSome then
      Except.error (Err.duplicateVersion e.version)
    else
      match gradle_sha256 e.shaBody with
      | Except.error er => Except.error er
      | Except.ok sha => updateLoop es (data ++ [(e.version, ⟨e.downloadUrl, sha⟩)])

/-- `update_gradle_versions`: the manifest written by one refresh run. -/
def update_gradle_versions (entries : List VsnEntry) : Except Err Manifest :=
  updateLoop entries []

/-- Spec-side predicate, from the spec's words: `sha256` matches exactly 64
hexadecimal characters. -/
def specHex64 (s : List Char) : Bool :=
  s.length == 64 && s.all (fun c => hexChars.contains c)

/-- Spec-side transform, from the spec's words: each backslash-escaped colon
in the value becomes a plain colon. -/
def specUnescapeAll : List Char → List Char
  | '\\' :: ':' :: rest => ':' :: specUnescapeAll rest
  | c :: rest => c :: specUnescapeAll rest
  | [] => []

/-- Whether an effect mutates the filesystem under the cache root. -/
def cacheMut : Eff → Bool
  | Eff.mkdirCache => true
  | Eff.extract => true
  | Eff.chmod => true
  | _ => false

end GradlewPy

namespace GradlewPy

lemma isPrefixOf_append_self : ∀ l r : List Char, l.isPrefixOf (l ++ r) = true
  | [], _ => by simp [List.isPrefixOf]
  | a :: l, r => by
    rw [List.cons_append]
    simp [List.isPrefixOf, isPrefixOf_append_self l r]

lemma isPrefixOf_append_of_le : ∀ (p l r : List Char), p.length ≤ l.length →
    p.isPrefixOf (l ++ r) = p.isPrefixOf l
  | [], l, _, _ => by simp [List.isPrefixOf]
  | a :: p, [], r, h => by simp at h
  | a :: p, b :: l, r, h => by
    rw [List.cons_append]
    simp only [List.isPrefixOf]
    rw [isPrefixOf_append_of_le p l r (by simpa using h)]

lemma optTruthy_some_iff (u : List Char) : optTruthy (some u) = true ↔ u ≠ [] := by
  cases u <;> simp [optTruthy]

lemma optTruthy_none : optTruthy none = false := rfl

lemma optTruthy_some_nil : optTruthy (some []) = false := rfl

lemma stepLine_url_pos (st : PState) (l : List Char)
    (h : urlKey.isPrefixOf l = true) : (stepLine st l).url = some (urlVal l) := by
  simp only [stepLine, h, if_true]

lemma stepLine_url_of_not (st : PState) (l : List Char)
    (h : urlKey.isPrefixOf l = false) : (stepLine st l).url = st.url := by
  simp [stepLine, h, apply_ite]

lemma stepLine_sha_of_not (st : PState) (l : List Char)
    (h : shaKey.isPrefixOf l = false) : (stepLine st l).sha = st.sha := by
  simp [stepLine, h, apply_ite]

lemma url_last (lines : List (List Char)) : ∀ st : PState,
    (optTruthy (List.foldl stepLine st lines).url = true ↔
      ((lines.filter fun l => urlKey.isPrefixOf l).map urlVal).getLastD (st.url.getD []) ≠ []) := by
  induction lines with
  | nil =>
    intro st
    cases hst : st.url with
    | none => simp [optTruthy, hst]
    | some v => cases v <;> simp [optTruthy, hst]
  | cons l ls ih =>
    intro st
    rw [List.foldl_cons]
    by_cases hl : urlKey.isPrefixOf l = true
    · rw [ih (stepLine st l), stepLine_url_pos st l hl,
        List.filter_cons_of_pos hl, List.map_cons, List.getLastD_cons, Option.getD_some]
    · have hl' : urlKey.isPrefixOf l = false := Bool.eq_false_iff.mpr hl
      rw [ih (stepLine st l), stepLine_url_of_not st l hl',
        List.filter_cons_of_neg (by simp [hl'])]

lemma sha_preserved (lines : List (List Char)) : ∀ st : PState,
    (∀ l ∈ lines, shaKey.isPrefixOf l = false) →
    (List.foldl stepLine st lines).sha = st.sha := by
  induction lines with
  | nil => intro st _; rfl
  | cons l ls ih =>
    intro st h
    rw [List.foldl_cons, ih _ (fun x hx => h x (List.mem_cons_of_mem l hx)),
      stepLine_sha_of_not st l (h l (List.mem_cons_self l ls))]

lemma replaceFirst_head (pat rep rest : List Char) (hne : pat ≠ []) :
    replaceFirst pat rep (pat ++ rest) = rep ++ rest := by
  cases pat with
  | nil => exact absurd rfl hne
  | cons a as =>
    have h1 : (a :: as).isPrefixOf ((a :: as) ++ rest) = true :=
      isPrefixOf_append_self _ _
    rw [List.cons_append] at h1 ⊢
    simp only [replaceFirst, h1, if_true]
    simp [List.drop_left]

lemma replaceFirst_of_not_sub (pat rep : List Char) :
    ∀ v : List Char, containsSub pat v = false → replaceFirst pat rep v = v
  | [], _ => rfl
  | c :: cs, h => by
    have h' : pat.isPrefixOf (c :: cs) = false ∧ containsSub pat cs = false := by
      simpa [containsSub] using h
    simp only [replaceFirst, h'.1]
    simp [replaceFirst_of_not_sub pat rep cs h'.2]

lemma stepLine_urlLine (st : PState) (u : List Char) :
    stepLine st (urlKey ++ u)
      = ⟨some (urlVal (urlKey ++ u)), st.sha,
         if optTruthy st.url then st.warns ++ [Warn.dupUrl] else st.warns⟩ := by
  unfold stepLine
  rw [if_pos (isPrefixOf_append_self urlKey u)]

lemma stepLine_shaLine (st : PState) (s : List Char) :
    stepLine st (shaKey ++ s)
      = ⟨st.url, some s,
         if optTruthy st.sha then st.warns ++ [Warn.dupSha] else st.warns⟩ := by
  have hks : urlKey.isPrefixOf (shaKey ++ s) = false := by
    rw [isPrefixOf_append_of_le urlKey shaKey s (by decide)]
    decide
  unfold stepLine
  rw [if_neg (fun hcon => Bool.false_ne_true (hks ▸ hcon)),
    if_pos (isPrefixOf_append_self shaKey s), List.drop_left]

/-- Claim C1 counterexample: the child is successfully launched and exits
with code 2, but the wrapper's own exit code is 1, not 2 — `run_command`
turns any nonzero child exit into an `Error` and `main` exits 1 on every
`Error`. -/
theorem c1_counterexample :
    mainExit (gradlew [("8.7".toList, ⟨gradleBinzipUrl "8.7".toList, "bb".toList⟩)]
        (some "8.7".toList) true [] "lib".toList true
        ⟨false, true, [], true, true⟩ (some 2)).2 = 1
    ∧ (1 : Nat) ≠ 2 := by decide

/-- Claim C1 (amended): the wrapper exits 0 exactly when the launched child
exits 0; any nonzero child exit code, a failed launch, and every recognized
wrapper failure all produce the wrapper exit code 1 (with a one-line
diagnostic on the error stream). -/
theorem c1_exit_code (cmd : List Char) (c : Nat) (e : Err) :
    mainExit (run_command cmd (some c)).2 = (if c = 0 then 0 else 1)
    ∧ mainExit (run_command cmd none).2 = 1
    ∧ mainExit (Except.error e : Except Err Unit) = 1 := by
  refine ⟨?_, rfl, rfl⟩
  cases c with
  | zero => rfl
  | succ n => simp [run_command, mainExit]

/-- Claim C2 (confirmed): cross-validation symmetry of the resolver, for any
manifest containing the resolved version.  (1)/(2) If each descriptor field
is absent or equal to the manifest's value, resolution proceeds to
materialization with the manifest's URL and checksum; (3) a present,
differing descriptor URL fails with the URL-mismatch error (the URL check
comes first in source order), and a present, differing descriptor checksum —
with the URL check passing — fails with the checksum-mismatch error. -/
theorem c2_cross_validation_symmetry (manifest : Manifest) (v : List Char)
    (r : VersionRec) (libdir : List Char) (cacheExists : Bool) (denv : DlEnv)
    (child : Option Nat) (h : lookupVersion manifest v = some r) :
    (∀ wUrl wSha : Option (List Char),
        (wUrl = none ∨ wUrl = some r.binzip_url) →
        (wSha = none ∨ wSha = some r.sha256) →
        resolveCore wUrl wSha v manifest libdir cacheExists denv child
          = materializeAndRun v r libdir cacheExists denv child)
    ∧ (∀ (u : List Char) (wSha : Option (List Char)), u ≠ [] → u ≠ r.binzip_url →
        resolveCore (some u) wSha v manifest libdir cacheExists denv child
          = ([], Except.error (Err.urlMismatch r.binzip_url u)))
    ∧ (∀ (s : List Char) (wUrl : Option (List Char)), s ≠ [] → s ≠ r.sha256 →
        (wUrl = none ∨ wUrl = some r.binzip_url) →
        resolveCore wUrl (some s) v manifest libdir cacheExists denv child
          = ([], Except.error (Err.shaMismatch r.sha256 s))) := by
  refine ⟨?_, ?_, ?_⟩
  · rintro wUrl wSha (rfl | rfl) (rfl | rfl) <;> simp [resolveCore, h, optTruthy]
  · intro u wSha hu hne
    have ht : optTruthy (some u) = true := (optTruthy_some_iff u).2 hu
    simp [resolveCore, h, ht, Ne.symm hne]
  · rintro s wUrl hs hne h2
    have ht : optTruthy (some s) = true := (optTruthy_some_iff s).2 hs
    rcases h2 with rfl | rfl <;> simp [resolveCore, h, ht, Ne.symm hne, optTruthy_none]

theorem c2_cross_validation_symmetry_witness :
    lookupVersion [("8.7".toList, ⟨"u".toList, "s".toList⟩)] "8.7".toList
      = some ⟨"u".toList, "s".toList⟩
    ∧ resolveCore none none "8.7".toList [("8.7".toList, ⟨"u".toList, "s".toList⟩)]
        "lib".toList true ⟨false, true, [], true, true⟩ (some 0)
      = materializeAndRun "8.7".toList ⟨"u".toList, "s".toList⟩ "lib".toList true
          ⟨false, true, [], true, true⟩ (some 0)
    ∧ resolveCore (some "x".toList) none "8.7".toList
        [("8.7".toList, ⟨"u".toList, "s".toList⟩)] "lib".toList true
        ⟨false, true, [], true, true⟩ (some 0)
      = ([], Except.error (Err.urlMismatch "u".toList "x".toList))
    ∧ resolveCore none (some "t".toList) "8.7".toList
        [("8.7".toList, ⟨"u".toList, "s".toList⟩)] "lib".toList true
        ⟨false, true, [], true, true⟩ (some 0)
      = ([], Except.error (Err.shaMismatch "s".toList "t".toList)) :=
  ⟨by decide,
   (c2_cross_validation_symmetry [("8.7".toList, ⟨"u".toList, "s".toList⟩)]
      "8.7".toList ⟨"u".toList, "s".toList⟩ "lib".toList true
      ⟨false, true, [], true, true⟩ (some 0) (by decide)).1 none none
     (Or.inl rfl) (Or.inl rfl),
   (c2_cross_validation_symmetry [("8.7".toList, ⟨"u".toList, "s".toList⟩)]
      "8.7".toList ⟨"u".toList, "s".toList⟩ "lib".toList true
      ⟨false, true, [], true, true⟩ (some 0) (by decide)).2.1 "x".toList none
     (by decide) (by decide),
   (c2_cross_validation_symmetry [("8.7".toList, ⟨"u".toList, "s".toList⟩)]
      "8.7".toList ⟨"u".toList, "s".toList⟩ "lib".toList true
      ⟨false, true, [], true, true⟩ (some 0) (by decide)).2.2 "t".toList none
     (by decide) (by decide) (Or.inl rfl)⟩

/-- Claim C3 (confirmed): when the digest of the downloaded archive differs
from the expected checksum, `download_gradle` raises the checksum-mismatch
error with only the download and temporary-file write performed — no cache
directory creation, no extraction, no promotion into the cache. -/
theorem c3_mismatch_no_cache_mutation (libdir version binzip_url sha256 : List Char)
    (env : DlEnv) (hf : env.fetchOk = true) (hd : env.dlDigest ≠ sha256) :
    download_gradle libdir version binzip_url sha256 false env
      = ([Eff.download binzip_url, Eff.writeTmp],
         Except.error (Err.dlShaMismatch sha256 env.dlDigest))
    ∧ [Eff.download binzip_url, Eff.writeTmp].all (fun e => !cacheMut e) = true := by
  refine ⟨?_, rfl⟩
  simp [download_gradle, hf, hd]

theorem c3_mismatch_no_cache_mutation_witness :
    ("aa".toList ≠ "bb".toList)
    ∧ (download_gradle "lib".toList "8.7".toList "u".toList "bb".toList false
          ⟨false, true, "aa".toList, true, true⟩
        = ([Eff.download "u".toList, Eff.writeTmp],
           Except.error (Err.dlShaMismatch "bb".toList "aa".toList))
      ∧ [Eff.download "u".toList, Eff.writeTmp].all (fun e => !cacheMut e) = true) :=
  ⟨by decide,
   c3_mismatch_no_cache_mutation "lib".toList "8.7".toList "u".toList "bb".toList
     ⟨false, true, "aa".toList, true, true⟩ rfl (by decide)⟩

/-- Claim C4 (confirmed): when the expected executable path already exists
under the cache root, `download_gradle` returns that path immediately, with
an empty effect trace — zero network accesses and zero filesystem writes. -/
theorem c4_cache_hit_idempotent (libdir version binzip_url sha256 : List Char)
    (env : DlEnv) :
    download_gradle libdir version binzip_url sha256 true env
      = ([], Except.ok (gradleCmdPath libdir version)) := by
  simp [download_gradle]

/-- Claim C5 (confirmed): when the descriptor declares a checksum that is
truthy and disagrees with the manifest's checksum for the resolved version
(same URL), `gradlew` fails with the checksum-mismatch error with an empty
effect trace — strictly before any network access or cache mutation. -/
theorem c5_cross_validation_before_download (manifest : Manifest)
    (lines : List (List Char)) (libdir : List Char) (cacheExists : Bool)
    (denv : DlEnv) (child : Option Nat) (w : List Warn) (u s v : List Char)
    (r : VersionRec)
    (hp : load_wrapper_urls lines = (w, Except.ok (u, some s)))
    (hm : binzipFullmatch u = some v)
    (hl : lookupVersion manifest v = some r)
    (hu : u = r.binzip_url) (hs : s ≠ []) (hne : s ≠ r.sha256) :
    gradlew manifest none true lines libdir cacheExists denv child
      = ([], Except.error (Err.shaMismatch r.sha256 s)) := by
  subst hu
  have ht : optTruthy (some s) = true := (optTruthy_some_iff s).2 hs
  simp [gradlew, optTruthy_none, hp, hm, resolveCore, hl, ht, Ne.symm hne]

theorem c5_cross_validation_before_download_witness :
    gradlew
      [("8.7".toList, ⟨gradleBinzipUrl "8.7".toList, "bb".toList⟩)] none true
      ["distributionUrl=https\\://services.gradle.org/distributions/gradle-8.7-bin.zip".toList,
       "distributionSha256Sum=aa".toList]
      "lib".toList false ⟨false, true, [], true, true⟩ (some 0)
      = ([], Except.error (Err.shaMismatch "bb".toList "aa".toList)) :=
  c5_cross_validation_before_download
    [("8.7".toList, ⟨gradleBinzipUrl "8.7".toList, "bb".toList⟩)]
    ["distributionUrl=https\\://services.gradle.org/distributions/gradle-8.7-bin.zip".toList,
     "distributionSha256Sum=aa".toList]
    "lib".toList false ⟨false, true, [], true, true⟩ (some 0) []
    (gradleBinzipUrl "8.7".toList) "aa".toList "8.7".toList
    ⟨gradleBinzipUrl "8.7".toList, "bb".toList⟩
    (by decide) (by decide) (by decide) (by decide) (by decide) (by decide)

/-- Claim C6 (code bug): `_gradle_sha256`'s validation parses as
`(len(s) != 64) and all(hex)` instead of the intended
`not (len(s) == 64 and all(hex))`, so a fetched body that is not a
64-character hexadecimal string — here `"zzz"` — passes unraised, and
`update_gradle_versions` stores it into the manifest, violating the
VersionRecord checksum invariant (`specHex64`). -/
theorem c6_checksum_invariant_bug :
    gradle_sha256 "zzz".toList = Except.ok "zzz".toList
    ∧ update_gradle_versions
        [⟨"8.7".toList, gradleBinzipUrl "8.7".toList, gradleSha256Url "8.7".toList,
          false, false, "zzz".toList⟩]
        = Except.ok [("8.7".toList, ⟨gradleBinzipUrl "8.7".toList, "zzz".toList⟩)]
    ∧ specHex64 "zzz".toList = false := by decide

/-- Claim C7 counterexample: a descriptor whose single line is
`distributionUrl=` has the URL key present (the line starts with it), yet
parsing fails with the descriptor-malformed error, refuting "fails if and
only if the distribution-URL key is entirely absent". -/
theorem c7_counterexample :
    (load_wrapper_urls ["distributionUrl=".toList]).2
      = Except.error Err.noDistributionUrl
    ∧ urlKey.isPrefixOf "distributionUrl=".toList = true := by decide

/-- Claim C7 (amended): parsing fails with the descriptor-malformed error iff
the last distribution-URL line's parsed value — defaulting to empty when no
such line exists — is empty (so: key absent, or present only with an empty
value); a missing checksum key only emits a warning and yields a `none`
checksum, and resolution then proceeds to materialization using the
manifest-supplied checksum. -/
theorem c7_descriptor_parse_failure :
    (∀ lines : List (List Char),
        ((load_wrapper_urls lines).2 = Except.error Err.noDistributionUrl ↔
          ((lines.filter fun l => urlKey.isPrefixOf l).map urlVal).getLastD [] = []))
    ∧ (∀ lines : List (List Char), (∀ l ∈ lines, shaKey.isPrefixOf l = false) →
        ∀ p : List Char × Option (List Char),
          (load_wrapper_urls lines).2 = Except.ok p →
          p.2 = none ∧ Warn.noSha ∈ (load_wrapper_urls lines).1)
    ∧ (∀ (manifest : Manifest) (v : List Char) (r : VersionRec) (libdir : List Char)
          (cacheExists : Bool) (denv : DlEnv) (child : Option Nat),
        lookupVersion manifest v = some r →
        resolveCore (some r.binzip_url) none v manifest libdir cacheExists denv child
          = materializeAndRun v r libdir cacheExists denv child) := by
  refine ⟨?_, ?_, ?_⟩
  · intro lines
    have hfold := url_last lines ⟨none, none, []⟩
    simp only [Option.getD_none] at hfold
    by_cases hc : optTruthy ((lines.foldl stepLine ⟨none, none, []⟩ : PState)).url = true
    · constructor
      · intro herr
        simp [load_wrapper_urls, hc] at herr
      · intro hlast
        exact absurd hlast (hfold.mp hc)
    · have hc' : optTruthy ((lines.foldl stepLine ⟨none, none, []⟩ : PState)).url = false :=
        Bool.eq_false_iff.mpr hc
      constructor
      · intro _
        by_contra hne
        exact hc (hfold.mpr hne)
      · intro _
        simp [load_wrapper_urls, hc']
  · intro lines hsha p hok
    cases p with
    | mk p1 p2 =>
      have hs := sha_preserved lines ⟨none, none, []⟩ hsha
      by_cases hc : optTruthy ((lines.foldl stepLine ⟨none, none, []⟩ : PState)).url = true
      · simp [load_wrapper_urls, hc] at hok
        refine ⟨?_, ?_⟩
        · rw [← hok.2]
          exact hs
        · simp [load_wrapper_urls, hc, hs, optTruthy_none]
      · have hc' : optTruthy ((lines.foldl stepLine ⟨none, none, []⟩ : PState)).url = false :=
          Bool.eq_false_iff.mpr hc
        simp [load_wrapper_urls, hc'] at hok
  · intro manifest v r libdir cacheExists denv child h
    simp [resolveCore, h, optTruthy_none]

theorem c7_descriptor_parse_failure_witness :
    (∀ l ∈ ["distributionUrl=x".toList], shaKey.isPrefixOf l = false)
    ∧ (load_wrapper_urls ["distributionUrl=x".toList]).2
        = Except.ok ("x".toList, none)
    ∧ (("x".toList, (none : Option (List Char))).2 = none
        ∧ Warn.noSha ∈ (load_wrapper_urls ["distributionUrl=x".toList]).1) :=
  ⟨by decide, by decide,
   c7_descriptor_parse_failure.2.1 ["distributionUrl=x".toList] (by decide)
     ("x".toList, none) (by decide)⟩

/-- Claim C8 counterexample: in the descriptor value `ftp\://x` the
backslash-escaped colon is not unescaped by the parser (only the literal
`https\:` would be, and only its first occurrence), so the parsed URL
differs from the spec-side full unescaping. -/
theorem c8_counterexample :
    (load_wrapper_urls ["distributionUrl=ftp\\://x".toList]).2
      = Except.ok ("ftp\\://x".toList, none)
    ∧ specUnescapeAll "ftp\\://x".toList = "ftp://x".toList
    ∧ "ftp\\://x".toList ≠ "ftp://x".toList := by decide

/-- Claim C8 (amended): the parser unescapes exactly the first occurrence of
the literal sequence `https\:` in the distribution-URL value, turning it
into `https:`; a value with no `https\:` occurrence — in particular any
other backslash-escaped colon — is stored unchanged. -/
theorem c8_unescape_first_https :
    (∀ rest : List Char,
        load_wrapper_urls [urlKey ++ (escHttps ++ rest)]
          = ([Warn.noSha], Except.ok (plainHttps ++ rest, none)))
    ∧ (∀ v : List Char, containsSub escHttps v = false → v ≠ [] →
        load_wrapper_urls [urlKey ++ v] = ([Warn.noSha], Except.ok (v, none))) := by
  have hne : escHttps ≠ [] := by decide
  have hpl : plainHttps ≠ [] := by decide
  constructor
  · intro rest
    have hpre : urlKey.isPrefixOf (urlKey ++ (escHttps ++ rest)) = true :=
      isPrefixOf_append_self _ _
    have hval : urlVal (urlKey ++ (escHttps ++ rest)) = plainHttps ++ rest := by
      rw [urlVal, List.drop_left, replaceFirst_head escHttps plainHttps rest hne]
    have ht : optTruthy (some (plainHttps ++ rest)) = true :=
      (optTruthy_some_iff _).2 (by simp [hpl])
    simp [load_wrapper_urls, stepLine, hpre, hval, ht, optTruthy_none]
  · intro v hsub hv
    have hpre : urlKey.isPrefixOf (urlKey ++ v) = true := isPrefixOf_append_self _ _
    have hval : urlVal (urlKey ++ v) = v := by
      rw [urlVal, List.drop_left, replaceFirst_of_not_sub escHttps plainHttps v hsub]
    have ht : optTruthy (some v) = true := (optTruthy_some_iff _).2 hv
    simp [load_wrapper_urls, stepLine, hpre, hval, ht, optTruthy_none]

theorem c8_unescape_first_https_witness :
    (containsSub escHttps "q\\:w".toList = false ∧ "q\\:w".toList ≠ [])
    ∧ load_wrapper_urls [urlKey ++ (escHttps ++ "//x".toList)]
        = ([Warn.noSha], Except.ok (plainHttps ++ "//x".toList, none))
    ∧ load_wrapper_urls [urlKey ++ "q\\:w".toList]
        = ([Warn.noSha], Except.ok ("q\\:w".toList, none)) :=
  ⟨by decide, c8_unescape_first_https.1 "//x".toList,
   c8_unescape_first_https.2 "q\\:w".toList (by decide) (by decide)⟩

/-- Claim C9 counterexample: the second `distributionUrl=` occurrence follows
a first occurrence with an empty value, and no duplicate warning is emitted
(the only emitted warning is the missing-checksum one), refuting "every
occurrence of a recognized key after the first emits a non-fatal warning". -/
theorem c9_counterexample :
    load_wrapper_urls ["distributionUrl=".toList, "distributionUrl=x".toList]
      = ([Warn.noSha], Except.ok ("x".toList, none))
    ∧ Warn.dupUrl ∉ [Warn.noSha] := by decide

/-- Claim C9 (amended): on a repeated recognized key the parser always
overwrites the stored value (the last occurrence's value is the parsed
result) and continues — duplication never fails the parse; the duplicate
warning is emitted exactly when the previously stored value is truthy
(non-empty), so a duplicate following an empty-valued occurrence is
silent. -/
theorem c9_duplicate_key_policy :
    (∀ u1 u2 : List Char, urlVal (urlKey ++ u2) ≠ [] →
        load_wrapper_urls [urlKey ++ u1, urlKey ++ u2]
          = ((if urlVal (urlKey ++ u1) = [] then [] else [Warn.dupUrl]) ++ [Warn.noSha],
             Except.ok (urlVal (urlKey ++ u2), none)))
    ∧ (∀ s1 s2 : List Char,
        load_wrapper_urls ["distributionUrl=x".toList, shaKey ++ s1, shaKey ++ s2]
          = ((if s1 = [] then [] else [Warn.dupSha])
               ++ (if s2 = [] then [Warn.noSha] else []),
             Except.ok ("x".toList, some s2))) := by
  constructor
  · intro u1 u2 h2
    have e : List.foldl stepLine ⟨none, none, []⟩ [urlKey ++ u1, urlKey ++ u2]
        = ⟨some (urlVal (urlKey ++ u2)), none,
           if optTruthy (some (urlVal (urlKey ++ u1))) then [Warn.dupUrl] else []⟩ := by
      rw [List.foldl_cons, stepLine_urlLine, List.foldl_cons, stepLine_urlLine,
        List.foldl_nil]
      simp [optTruthy_none]
    simp only [load_wrapper_urls]
    rw [e]
    by_cases h1 : urlVal (urlKey ++ u1) = [] <;>
      simp [h1, h2, optTruthy_some_iff, optTruthy_some_nil, optTruthy_none]
  · intro s1 s2
    have hx : stepLine ⟨none, none, []⟩ "distributionUrl=x".toList
        = ⟨some "x".toList, none, []⟩ := by decide
    have e : List.foldl stepLine ⟨none, none, []⟩
        ["distributionUrl=x".toList, shaKey ++ s1, shaKey ++ s2]
        = ⟨some "x".toList, some s2,
           if optTruthy (some s1) then [Warn.dupSha] else []⟩ := by
      rw [List.foldl_cons, hx, List.foldl_cons, stepLine_shaLine, List.foldl_cons,
        stepLine_shaLine, List.foldl_nil]
      simp [optTruthy_none]
    have hxt : optTruthy (some "x".toList) = true := by decide
    simp only [load_wrapper_urls]
    rw [e]
    by_cases h1 : s1 = [] <;> by_cases h2 : s2 = [] <;>
      simp [hxt, h1, h2, optTruthy_some_iff, optTruthy_some_nil, optTruthy_none]

theorem c9_duplicate_key_policy_witness :
    (urlVal (urlKey ++ "y".toList) ≠ [])
    ∧ load_wrapper_urls [urlKey ++ [], urlKey ++ "y".toList]
        = ([] ++ [Warn.noSha], Except.ok (urlVal (urlKey ++ "y".toList), none))
    ∧ load_wrapper_urls
        ["distributionUrl=x".toList, shaKey ++ "a".toList, shaKey ++ "b".toList]
        = ([Warn.dupSha] ++ [], Except.ok ("x".toList, some "b".toList)) := by
  refine ⟨by decide, ?_, ?_⟩
  · have h := c9_duplicate_key_policy.1 [] "y".toList (by decide)
    simpa using h
  · have h := c9_duplicate_key_policy.2 "a".toList "b".toList
    simpa using h

/-- Claim C10 (confirmed): for every newline-free version string `v`, the
distribution URL built from the URL template fully matches
`GRADLE_BINZIP_RX` and the extracted capture is exactly `v`; and whenever
the descriptor's parsed URL does not match the template, `gradlew` fails
with the unsupported-URL error. -/
theorem c10_version_roundtrip :
    (∀ v : List Char, (∀ c ∈ v, c ≠ '\n') →
        binzipFullmatch (gradleBinzipUrl v) = some v)
    ∧ (∀ (manifest : Manifest) (lines : List (List Char)) (libdir : List Char)
          (cacheExists : Bool) (denv : DlEnv) (child : Option Nat)
          (w : List Warn) (u : List Char) (sh : Option (List Char)),
        load_wrapper_urls lines = (w, Except.ok (u, sh)) →
        binzipFullmatch u = none →
        gradlew manifest none true lines libdir cacheExists denv child
          = ([], Except.error (Err.unsupportedURL u))) := by
  constructor
  · intro v hv
    have hbl : binSuf.length = 8 := by decide
    have hpre : distroPre.isPrefixOf (gradleBinzipUrl v) = true := by
      rw [gradleBinzipUrl, List.append_assoc]
      exact isPrefixOf_append_self _ _
    have hdrop : (gradleBinzipUrl v).drop distroPre.length = v ++ binSuf := by
      rw [gradleBinzipUrl, List.append_assoc, List.drop_left]
    have hlen : (v ++ binSuf).length = v.length + 8 := by
      rw [List.length_append, hbl]
    have hnot : ¬ (v ++ binSuf).length < 8 := by
      rw [hlen]
      omega
    have htake : (v ++ binSuf).take ((v ++ binSuf).length - 8) = v := by
      rw [hlen, Nat.add_sub_cancel, List.take_left]
    have hdrop2 : (v ++ binSuf).drop ((v ++ binSuf).length - 8) = binSuf := by
      rw [hlen, Nat.add_sub_cancel, List.drop_left]
    have hsuf : binSufMatch binSuf = true := by decide
    have hall : v.all (fun c => !(c == '\n')) = true := by
      rw [List.all_eq_true]
      intro c hc
      simpa using hv c hc
    simp only [binzipFullmatch, hpre, if_true, hdrop, hnot, if_false, htake,
      hdrop2, hsuf, hall, Bool.and_self, ite_true]
  · intro manifest lines libdir cacheExists denv child w u sh hp hm
    simp [gradlew, optTruthy_none, hp, hm]

theorem c10_version_roundtrip_witness :
    (∀ c ∈ "8.7".toList, c ≠ '\n')
    ∧ binzipFullmatch (gradleBinzipUrl "8.7".toList) = some "8.7".toList
    ∧ gradlew [] none true ["distributionUrl=ftp\\://x".toList] "lib".toList true
        ⟨false, true, [], true, true⟩ (some 0)
      = ([], Except.error (Err.unsupportedURL "ftp\\://x".toList)) :=
  ⟨by decide, c10_version_roundtrip.1 "8.7".toList (by decide),
   c10_version_roundtrip.2 [] ["distributionUrl=ftp\\://x".toList] "lib".toList
     true ⟨false, true, [], true, true⟩ (some 0) [Warn.noSha] "ftp\\://x".toList
     none (by decide) (by decide)⟩

end GradlewPy
